import Mathlib

/-!
Verification development for the parquet-peek viewer core
(`parquet-ext/viewer-utils.js` plus the viewer driver script).

Strings are modelled as `List Char`; JavaScript's global single-character
regex replaces become character-by-character rewrites.  Fallible JavaScript
code (a `TypeError` thrown when a `{min,max}` object reaches a `.replace`
call) is modelled with `Except Unit`.  JavaScript numbers produced by
`parseFloat` are modelled exactly as decimal fractions `m / 10^k`
(plus signed infinity); this is an exact-decimal model: it does not round to
binary64 and it renders very large/small magnitudes in plain decimal rather
than JavaScript's exponent notation, which is irrelevant to the claims
settled here.
-/

namespace ParquetPeek

abbrev Str := List Char

/-- One pass of a JavaScript `str.replace(/c/g, r)` for a single character
`c` and replacement string `r`. -/
def replChar (c : Char) (r : Str) : Str → Str
  | [] => []
  | x :: xs => (if x = c then r else [x]) ++ replChar c r xs

/-- `escapeSource` from viewer-utils.js: `source.replace(/'/g, "''")`.
The same single-quote doubling is applied inline to filter values in
`buildFilterClauses`. -/
def escapeSource (s : Str) : Str := replChar '\'' "''".toList s

/-- `escapeLikePattern` from viewer-utils.js: backslash first, then `%`,
then `_`, each replaced globally. -/
def escapeLikePattern (s : Str) : Str :=
  replChar '_' "\\_".toList (replChar '%' "\\%".toList (replChar '\\' "\\\\".toList s))

/-- `escapeColumnName` from viewer-utils.js: wrap in double quotes and
double any embedded double quote. -/
def escapeColumnName (name : Str) : Str :=
  '"' :: (replChar '"' "\"\"".toList name ++ ['"'])

/-- JavaScript string whitespace as used by `trim` and `parseFloat`
(ASCII subset; the sources only ever carry ASCII input). -/
def isJsSpace (c : Char) : Bool :=
  c = ' ' || c = '\t' || c = '\n' || c = '\r'

/-- JavaScript `String.prototype.trim` (ASCII whitespace model). -/
def jsTrim (s : Str) : Str :=
  ((s.dropWhile isJsSpace).reverse.dropWhile isJsSpace).reverse

def isDecDigit (c : Char) : Bool := '0' ≤ c && c ≤ '9'

/-- Value of a (non-empty) digit string, most significant digit first. -/
def digitsVal (ds : Str) : Nat :=
  ds.foldl (fun a c => a * 10 + (c.toNat - 48)) 0

/-- A JavaScript number as produced by `parseFloat`: an exact decimal
fraction `m / 10 ^ k`, or a signed infinity.  (`NaN` is `none` at use
sites.) -/
inductive JSNum where
  | fin (m : Int) (k : Nat)
  | inf (neg : Bool)
deriving DecidableEq, Repr

/-- Model of JavaScript `parseFloat`: skip leading whitespace, optional
sign, `Infinity`, or the longest prefix of the form
`digits [. digits] [(e|E) [sign] digits]`; `none` models `NaN`.
An exponent part that lacks digits is not consumed (longest valid
prefix), matching `parseFloat("12e") = 12`. -/
def jsParseFloat (s : Str) : Option JSNum :=
  let t := s.dropWhile isJsSpace
  let sgn : Bool × Str :=
    match t with
    | '+' :: r => (false, r)
    | '-' :: r => (true, r)
    | _ => (false, t)
  let neg := sgn.1
  let r := sgn.2
  if "Infinity".toList.isPrefixOf r then some (.inf neg) else
  let intD := r.takeWhile isDecDigit
  let r1 := r.dropWhile isDecDigit
  let fracPart : Str × Str :=
    match r1 with
    | '.' :: r2 => (r2.takeWhile isDecDigit, r2.dropWhile isDecDigit)
    | _ => ([], r1)
  let fracD := fracPart.1
  let r2 := fracPart.2
  if intD.isEmpty && fracD.isEmpty then none else
  let m0 : Nat := digitsVal (intD ++ fracD)
  let k : Nat := fracD.length
  let e : Int :=
    match r2 with
    | c :: r3 =>
      if c = 'e' || c = 'E' then
        let esgn : Bool × Str :=
          match r3 with
          | '+' :: r4 => (false, r4)
          | '-' :: r4 => (true, r4)
          | _ => (false, r3)
        let eD := esgn.2.takeWhile isDecDigit
        if eD.isEmpty then 0
        else if esgn.1 then -(digitsVal eD : Int) else (digitsVal eD : Int)
      else 0
    | [] => 0
  let d : Int := e - (k : Int)
  let mS : Int := if neg then -(m0 : Int) else (m0 : Int)
  some (if 0 ≤ d then .fin (mS * 10 ^ d.toNat) 0 else .fin mS d.natAbs)

def digitChar (d : Nat) : Char := Char.ofNat (48 + d % 10)

/-- Decimal digits of `n`, most significant first (fuel-structural so that
it reduces by `rfl`/`decide`). -/
def natDigitsAux : Nat → Nat → Str
  | 0, _ => []
  | fuel + 1, n =>
    if n < 10 then [digitChar n]
    else natDigitsAux fuel (n / 10) ++ [digitChar (n % 10)]

def natDigits (n : Nat) : Str := natDigitsAux (n + 1) n

/-- Strip factors of ten shared between the mantissa and the fractional
scale, as JavaScript number-to-string never prints trailing fractional
zeros (`String(1.50) = "1.5"`, `String(parseFloat("0.0")) = "0"`). -/
def normFrac : Int → Nat → Int × Nat
  | m, 0 => (m, 0)
  | m, k + 1 => if m % 10 = 0 then normFrac (m / 10) k else (m, k + 1)

def renderDecCore (m : Int) (k : Nat) : Str :=
  (if m < 0 then ['-'] else []) ++
  (if k = 0 then natDigits m.natAbs
   else
     natDigits (m.natAbs / 10 ^ k) ++ ['.'] ++
       (List.replicate (k - (natDigits (m.natAbs % 10 ^ k)).length) '0' ++
        natDigits (m.natAbs % 10 ^ k)))

/-- Decimal rendering of `m / 10 ^ k`. -/
def renderDec (m : Int) (k : Nat) : Str :=
  renderDecCore (normFrac m k).1 (normFrac m k).2

/-- Model of JavaScript template-literal stringification `${num}` for the
values `parseFloat` produces. -/
def renderNum : JSNum → Str
  | .fin m k => renderDec m k
  | .inf false => "Infinity".toList
  | .inf true => "-Infinity".toList

/-- A filter value as stored in the viewer's `filters` map: a scalar
string (text/select inputs) or a `{min, max}` pair (range/date inputs). -/
inductive FilterVal where
  | scalar (s : Str)
  | range (min max : Str)
deriving DecidableEq, Repr

/-- An entry of the viewer's `columnMeta` map.  A column missing from the
map behaves as `{}` (`colMeta[col] || {}`), modelled by empty strings in
both fields. -/
structure ColMeta where
  filterType : Str
  type : Str
deriving DecidableEq, Repr

def metaOf (cm : List (Str × ColMeta)) (c : Str) : ColMeta :=
  ((cm.find? fun e => e.1 == c).map (·.2)).getD ⟨[], []⟩

/-- The keep-predicate of `buildFilterClauses` (lines 36-41): objects are
kept when `min` or `max` is non-empty, scalars when truthy with a
non-empty trim.  The same test computes `hasFilters` in `reloadData`,
`loadMore` and `loadAll`. -/
def keepFilter : FilterVal → Bool
  | .range mn mx => !mn.isEmpty || !mx.isEmpty
  | .scalar s => !s.isEmpty && !(jsTrim s).isEmpty

/-- The strict `/^\d{4}-\d{2}-\d{2}$/` test of the date branch. -/
def dateLit : Str → Bool
  | [a, b, c, d, e, f, g, h, i, j] =>
    a.isDigit && b.isDigit && c.isDigit && d.isDigit && e = '-' &&
    f.isDigit && g.isDigit && h = '-' && i.isDigit && j.isDigit
  | _ => false

/-- The `/^TIMESTAMP/i` test on the column's declared type. -/
def isTimestampType (ty : Str) : Bool :=
  "timestamp".toList.isPrefixOf (ty.map Char.toLower)

/-- `parts.join(' AND ')`. -/
def joinSql : List Str → Str
  | [] => []
  | [s] => s
  | s :: rest => s ++ " AND ".toList ++ joinSql rest

def paren (s : Str) : Str := '(' :: (s ++ [')'])

/-- The body of the `.map` in `buildFilterClauses`: the SQL predicate (or
`null`, modelled `none`) produced for one kept filter entry.  `.error ()`
models the `TypeError` JavaScript throws when a `{min,max}` object reaches
the `val.replace` call of the select or text branch; the range and date
branches instead read `undefined` fields off a scalar (yielding `NaN` /
falsy, hence no parts). -/
def entryClause (col : Str) (v : FilterVal) (meta : ColMeta) :
    Except Unit (Option Str) :=
  if meta.filterType = "range".toList then
    .ok (match v with
      | .scalar _ => none
      | .range mn mx =>
        let parts :=
          (match jsParseFloat mn with
           | some n => [escapeColumnName col ++ " >= ".toList ++ renderNum n]
           | none => []) ++
          (match jsParseFloat mx with
           | some n => [escapeColumnName col ++ " <= ".toList ++ renderNum n]
           | none => [])
        if 0 < parts.length then some (paren (joinSql parts)) else none)
  else if meta.filterType = "date".toList then
    .ok (match v with
      | .scalar _ => none
      | .range mn mx =>
        let parts :=
          (if !mn.isEmpty && dateLit mn then
             [escapeColumnName col ++ " >= '".toList ++ mn ++ "'".toList]
           else []) ++
          (if !mx.isEmpty && dateLit mx then
             [if isTimestampType meta.type then
                escapeColumnName col ++ " < '".toList ++ mx ++
                  "'::DATE + INTERVAL '1 day'".toList
              else
                escapeColumnName col ++ " <= '".toList ++ mx ++ "'".toList]
           else [])
        if 0 < parts.length then some (paren (joinSql parts)) else none)
  else if meta.filterType = "select".toList then
    match v with
    | .range _ _ => .error ()
    | .scalar s =>
      .ok (if s.isEmpty then none
           else some (escapeColumnName col ++ " = '".toList ++
                      escapeSource s ++ "'".toList))
  else
    match v with
    | .range _ _ => .error ()
    | .scalar s =>
      .ok (some ("CAST(".toList ++ escapeColumnName col ++
                 " AS VARCHAR) ILIKE '%".toList ++
                 escapeLikePattern (escapeSource s) ++
                 "%' ESCAPE '\\'".toList))

/-- Sequential mapping of `entryClause` over already-kept entries, keeping
the non-`null` clauses (the trailing `.filter(Boolean)`); the first thrown
`TypeError` aborts the whole computation, as in JavaScript. -/
def clausesAux (cm : List (Str × ColMeta)) :
    List (Str × FilterVal) → Except Unit (List Str)
  | [] => .ok []
  | (c, v) :: rest =>
    match entryClause c v (metaOf cm c) with
    | .error e => .error e
    | .ok none => clausesAux cm rest
    | .ok (some s) =>
      match clausesAux cm rest with
      | .error e => .error e
      | .ok ss => .ok (s :: ss)

/-- `buildFilterClauses` from viewer-utils.js:
`Object.entries(filterMap).filter(keep).map(toClause).filter(Boolean)`. -/
def buildFilterClauses (fm : List (Str × FilterVal))
    (cm : List (Str × ColMeta)) : Except Unit (List Str) :=
  clausesAux cm (fm.filter fun e => keepFilter e.2)

/-- Semantics of a SQL `ILIKE` pattern with `ESCAPE '\'` (fuel-structural;
`%` matches any run, `_` one character, a backslash escapes the next
character; comparison is case-insensitive). -/
def likeMatchF : Nat → Str → Str → Bool
  | 0, _, _ => false
  | _ + 1, [], [] => true
  | _ + 1, [], _ :: _ => false
  | fuel + 1, '%' :: p, [] => likeMatchF fuel p []
  | fuel + 1, '%' :: p, c :: t =>
    likeMatchF fuel p (c :: t) || likeMatchF fuel ('%' :: p) t
  | _ + 1, '\\' :: _ :: _, [] => false
  | fuel + 1, '\\' :: e :: p, c :: t =>
    (c.toLower == e.toLower) && likeMatchF fuel p t
  | _ + 1, '_' :: _, [] => false
  | fuel + 1, '_' :: p, _ :: t => likeMatchF fuel p t
  | _ + 1, _ :: _, [] => false
  | fuel + 1, a :: p, c :: t =>
    (c.toLower == a.toLower) && likeMatchF fuel p t

def likeMatch (p t : Str) : Bool := likeMatchF (p.length + t.length + 1) p t

/-! ### Paging / session state machine (viewer driver script) -/

/-- The mutable session state of the viewer driver: `offset`,
`sortColumn`/`sortDirection`, `filters`, the rows rendered so far, the
cached unfiltered `totalRows`, and the remaining-count / button state the
UI last displayed. -/
structure ViewerState (α : Type) where
  offset : Nat
  sortColumn : Option Str
  sortDirection : Option Str
  filters : List (Str × FilterVal)
  loaded : List α
  totalRows : Nat
  remaining : Int
  moreDisabled : Bool

/-- The opaque query engine of the spec's external contract: for a filter
map it yields the full filtered (and sorted) row sequence; `getRows` with
`LIMIT l OFFSET o` is `(eng f).drop o |>.take l` and the filtered `COUNT(*)`
is `(eng f).length`. -/
def Engine (α : Type) := List (Str × FilterVal) → List α

def CHUNK : Nat := 100

def ascDir : Str := "ASC".toList
def descDir : Str := "DESC".toList

/-- The `hasFilters` test recomputed inside `reloadData`, `loadMore` and
`loadAll`; it coincides with the keep-predicate of `buildFilterClauses`. -/
def hasFilters (fm : List (Str × FilterVal)) : Bool :=
  fm.any fun e => keepFilter e.2

/-- JavaScript property assignment `filters[col] = v`: replace in place,
or append a new key. -/
def setFilter (fm : List (Str × FilterVal)) (c : Str) (v : FilterVal) :
    List (Str × FilterVal) :=
  if fm.any fun e => e.1 == c then
    fm.map fun e => if e.1 == c then (c, v) else e
  else fm ++ [(c, v)]

def lookupFilter (fm : List (Str × FilterVal)) (c : Str) : Option FilterVal :=
  (fm.find? fun e => e.1 == c).map (·.2)

/-- `reloadData` (lines 463-494): fetch page 0 with the current
sort/filter state, set `offset` to the returned row count, recompute
`hasFilters` and — when true — run a fresh filtered-count query, else use
the cached `totalRows`; display `remaining = filteredCount - offset` and
disable loading when `remaining ≤ 0`. -/
def reloadData (eng : Engine α) (st : ViewerState α) : ViewerState α :=
  let rows := (eng st.filters).take CHUNK
  let filteredCount : Int :=
    if hasFilters st.filters then ((eng st.filters).length : Int)
    else (st.totalRows : Int)
  let remaining : Int := filteredCount - (rows.length : Int)
  { st with
    offset := rows.length
    loaded := rows
    remaining := remaining
    moreDisabled := decide (remaining ≤ 0) }

/-- The synchronous part of `handleSort` (lines 431-441): same column
flips `ASC`/`DESC`, a new column is set with direction forced to `ASC`;
the offset is reset to 0 before `reloadData` runs. -/
def handleSortState (col : Str) (st : ViewerState α) : ViewerState α :=
  if st.sortColumn = some col then
    { st with
      sortDirection :=
        some (if st.sortDirection = some ascDir then descDir else ascDir)
      offset := 0 }
  else
    { st with sortColumn := some col, sortDirection := some ascDir, offset := 0 }

/-- The synchronous part of `handleFilter` (lines 446-450). -/
def handleFilterState (col : Str) (v : Str) (st : ViewerState α) :
    ViewerState α :=
  { st with filters := setFilter st.filters col (.scalar v), offset := 0 }

inductive RangePart where
  | rmin
  | rmax
deriving DecidableEq

/-- The synchronous part of `handleRangeFilter` (lines 453-460): an absent
or non-object entry is first initialised to `{min:'', max:''}`, then the
named bound is overwritten. -/
def handleRangeFilterState (col : Str) (part : RangePart) (v : Str)
    (st : ViewerState α) : ViewerState α :=
  let cur : Str × Str :=
    match lookupFilter st.filters col with
    | some (.range mn mx) => (mn, mx)
    | _ => ([], [])
  let upd : FilterVal :=
    match part with
    | .rmin => .range v cur.2
    | .rmax => .range cur.1 v
  { st with filters := setFilter st.filters col upd, offset := 0 }

/-- `loadMore` (lines 632-656): fetch `CHUNK` rows at the current offset,
advance the offset by the number of rows actually returned, append them,
recompute `hasFilters`/`filteredCount` and the remaining display, and
disable the button when `remaining ≤ 0`. -/
def loadMoreState (eng : Engine α) (st : ViewerState α) : ViewerState α :=
  let rows := ((eng st.filters).drop st.offset).take CHUNK
  let offset := st.offset + rows.length
  let filteredCount : Int :=
    if hasFilters st.filters then ((eng st.filters).length : Int)
    else (st.totalRows : Int)
  let remaining : Int := filteredCount - (offset : Int)
  { st with
    offset := offset
    loaded := st.loaded ++ rows
    remaining := remaining
    moreDisabled := decide (remaining ≤ 0) }

/-- The four user transitions that end by displaying a remaining-row
count. -/
inductive ViewerTrans where
  | sort (col : Str)
  | filt (col : Str) (v : Str)
  | rfilt (col : Str) (part : RangePart) (v : Str)
  | more

def applyTrans (eng : Engine α) : ViewerTrans → ViewerState α → ViewerState α
  | .sort col, st => reloadData eng (handleSortState col st)
  | .filt col v, st => reloadData eng (handleFilterState col v st)
  | .rfilt col p v, st => reloadData eng (handleRangeFilterState col p v st)
  | .more, st => loadMoreState eng st

/-- The offset/accumulator core shared by `loadMore` (`offset +=
rows.length` with `CHUNK`-sized requests) and each `loadAll` batch (the
same with `BATCH`-sized requests): one paging step over the fixed filtered
result sequence. -/
def pageStep (data : List α) (chunk : Nat) (s : Nat × List α) : Nat × List α :=
  let rows := (data.drop s.1).take chunk
  (s.1 + rows.length, s.2 ++ rows)

/-! ### Error classification (viewer driver script) -/

inductive ErrorKind where
  | cors
  | network
  | invalidParquet
  | generic
deriving DecidableEq, Repr

def lcList (s : Str) : Str := s.map Char.toLower

/-- JavaScript `haystack.includes(needle)`: contiguous substring test. -/
def isSubstr (needle : Str) : Str → Bool
  | [] => needle.isEmpty
  | c :: rest => needle.isPrefixOf (c :: rest) || isSubstr needle rest

/-- `isCorsError` (lines 118-124); `urlHttp` models
`fileUrl?.startsWith('http')`. -/
def isCorsError (urlHttp : Bool) (msg : Str) : Bool :=
  let m := lcList msg
  isSubstr ("cors".toList) m ||
  isSubstr ("cross-origin".toList) m ||
  isSubstr ("network error".toList) m ||
  (isSubstr ("failed to fetch".toList) m && urlHttp)

/-- `isNetworkError` (lines 126-132). -/
def isNetworkError (msg : Str) : Bool :=
  let m := lcList msg
  isSubstr ("failed to fetch".toList) m ||
  isSubstr ("networkerror".toList) m ||
  isSubstr ("network request failed".toList) m ||
  isSubstr ("net::".toList) m

/-- `isInvalidParquet` (lines 134-141). -/
def isInvalidParquet (msg : Str) : Bool :=
  let m := lcList msg
  isSubstr ("parquet".toList) m ||
  isSubstr ("invalid".toList) m ||
  isSubstr ("not a valid".toList) m ||
  isSubstr ("magic number".toList) m ||
  isSubstr ("corrupted".toList) m

/-- The branch selection of `handleError` (lines 157-192): priority order
cors → network → invalid-parquet → generic fallback. -/
def classifyError (urlHttp : Bool) (msg : Str) : ErrorKind :=
  if isCorsError urlHttp msg then .cors
  else if isNetworkError msg then .network
  else if isInvalidParquet msg then .invalidParquet
  else .generic

def TIMEOUT_MS : Nat := 30000

/-- The error synthesized by the `timeoutPromise` race around
`loadParquet` (lines 774-776). -/
def timeoutErrorMessage : Str :=
  "Request timed out - the server took too long to respond".toList

/-! ### Overlapping asynchronous transitions (claim C9)

`reloadData` is an `async` function: between issuing its queries and
writing `offset`/rows/remaining into session state it suspends, so two
logical transitions can overlap.  The model below keeps the current
`filters`, the filter snapshots of the in-flight reloads (`pending`), and
the snapshot the currently displayed results were computed from
(`display`).  `mutate f` is a filter/sort edit issuing a reload under
snapshot `f` (lines 446-460 followed by 463-468); `complete i` is the
pending reload `i` finishing and writing its results unconditionally —
the code has no generation tag or staleness check (lines 468-490). -/

structure AsyncState where
  filters : List (Str × FilterVal)
  pending : List (List (Str × FilterVal))
  display : Option (List (Str × FilterVal))
deriving DecidableEq, Repr

inductive AsyncEvent where
  | mutate (f : List (Str × FilterVal))
  | complete (i : Nat)

def stepAsync (st : AsyncState) : AsyncEvent → AsyncState
  | .mutate f => { filters := f, pending := st.pending ++ [f], display := st.display }
  | .complete i =>
    match st.pending[i]? with
    | some f => { filters := st.filters, pending := st.pending.eraseIdx i, display := some f }
    | none => st

def runAsync (es : List AsyncEvent) (st : AsyncState) : AsyncState :=
  es.foldl stepAsync st

/-- "Semantically empty" filter values in the sense of the data model:
a scalar empty string, or a `{min, max}` pair with both components
empty. -/
def isEmptyFilterVal : FilterVal → Bool
  | .scalar s => s.isEmpty
  | .range mn mx => mn.isEmpty && mx.isEmpty

def decChars : Str := "0123456789".toList

/-- Every character a rendered `parseFloat` result can contain: decimal
digits, sign, decimal point, and the letters of `Infinity`. -/
def numChars : Str := "0123456789.-Infity".toList

def allSafe (s : Str) : Bool := s.all fun c => decide (c ∈ numChars)

/-- Two distinct filter snapshots used in the overlapping-transition
run. -/
def snapshotA : List (Str × FilterVal) := [("name".toList, .scalar ("x".toList))]

def snapshotB : List (Str × FilterVal) := [("name".toList, .scalar [])]

/-! ## Helper lemmas -/

theorem keepFilter_of_empty (v : FilterVal) (h : isEmptyFilterVal v = true) :
    keepFilter v = false := by
  cases v with
  | scalar s => simp [isEmptyFilterVal] at h; simp [keepFilter, h]
  | range mn mx => simp [isEmptyFilterVal] at h; simp [keepFilter, h.1, h.2]

theorem dateLit_isEmpty (s : Str) (h : dateLit s = true) : s.isEmpty = false := by
  cases s with
  | nil => exact absurd h (by decide)
  | cons c t => rfl

/-- A kept entry whose `entryClause` is a real clause contributes that
clause to the successful output of `clausesAux`. -/
theorem clausesAux_mem (cm : List (Str × ColMeta)) :
    ∀ (l : List (Str × FilterVal)) (cs : List Str) (col : Str) (v : FilterVal)
      (s : Str), clausesAux cm l = .ok cs → (col, v) ∈ l →
      entryClause col v (metaOf cm col) = .ok (some s) → s ∈ cs := by
  intro l
  induction l with
  | nil => intro cs col v s _ hm _; cases hm
  | cons hd tl ih =>
    intro cs col v s hok hm he
    obtain ⟨c0, v0⟩ := hd
    unfold clausesAux at hok
    rcases List.mem_cons.mp hm with heq | htl
    · injection heq with h1 h2
      subst h1; subst h2
      rw [he] at hok
      cases hr : clausesAux cm tl with
      | error e => rw [hr] at hok; cases hok
      | ok ss =>
        rw [hr] at hok
        injection hok with h3
        subst h3
        exact List.mem_cons_self s ss
    · cases hh : entryClause c0 v0 (metaOf cm c0) with
      | error e => rw [hh] at hok; cases hok
      | ok o =>
        rw [hh] at hok
        cases o with
        | none => exact ih cs col v s hok htl he
        | some s0 =>
          cases hr : clausesAux cm tl with
          | error e => rw [hr] at hok; cases hok
          | ok ss =>
            rw [hr] at hok
            injection hok with h3
            subst h3
            exact List.mem_cons_of_mem s0 (ih ss col v s hr htl he)

theorem buildFilterClauses_mem (fm : List (Str × FilterVal))
    (cm : List (Str × ColMeta)) (col : Str) (v : FilterVal) (s : Str)
    (cs : List Str) (hok : buildFilterClauses fm cm = .ok cs)
    (hm : (col, v) ∈ fm) (hk : keepFilter v = true)
    (he : entryClause col v (metaOf cm col) = .ok (some s)) : s ∈ cs := by
  apply clausesAux_mem cm _ cs col v s hok _ he
  exact List.mem_filter.mpr ⟨hm, hk⟩

theorem digitChar_mem (d : Nat) : digitChar d ∈ decChars := by
  unfold digitChar
  have h : d % 10 < 10 := Nat.mod_lt _ (by decide)
  revert h
  generalize d % 10 = m
  intro h
  interval_cases m <;> decide

theorem natDigitsAux_mem :
    ∀ (fuel n : Nat), ∀ c ∈ natDigitsAux fuel n, c ∈ decChars := by
  intro fuel
  induction fuel with
  | zero => intro n c hc; simp [natDigitsAux] at hc
  | succ fuel ih =>
    intro n c hc
    unfold natDigitsAux at hc
    by_cases h : n < 10
    · rw [if_pos h] at hc
      simp at hc
      subst hc
      exact digitChar_mem n
    · rw [if_neg h] at hc
      rcases List.mem_append.mp hc with h1 | h1
      · exact ih _ c h1
      · simp at h1
        subst h1
        exact digitChar_mem _

theorem decChars_sub : ∀ c ∈ decChars, c ∈ numChars := by decide

theorem natDigits_mem (n : Nat) : ∀ c ∈ natDigits n, c ∈ numChars :=
  fun c hc => decChars_sub c (natDigitsAux_mem _ _ c hc)

theorem renderDecCore_mem (m : Int) (k : Nat) :
    ∀ c ∈ renderDecCore m k, c ∈ numChars := by
  intro c hc
  unfold renderDecCore at hc
  rcases List.mem_append.mp hc with h | h
  · by_cases hm : m < 0
    · rw [if_pos hm] at h
      simp at h
      subst h
      decide
    · rw [if_neg hm] at h
      simp at h
  · by_cases hk : k = 0
    · rw [if_pos hk] at h
      exact natDigits_mem _ c h
    · rw [if_neg hk] at h
      rcases List.mem_append.mp h with h1 | h1
      · rcases List.mem_append.mp h1 with h2 | h2
        · exact natDigits_mem _ c h2
        · simp at h2
          subst h2
          decide
      · rcases List.mem_append.mp h1 with h2 | h2
        · rw [List.eq_of_mem_replicate h2]
          decide
        · exact natDigits_mem _ c h2

theorem renderNum_mem (n : JSNum) : ∀ c ∈ renderNum n, c ∈ numChars := by
  cases n with
  | fin m k =>
    intro c hc
    unfold renderNum renderDec at hc
    exact renderDecCore_mem _ _ c hc
  | inf b => cases b <;> (intro c; revert c; decide)

theorem allSafe_renderNum (n : JSNum) : allSafe (renderNum n) = true := by
  simp only [allSafe, List.all_eq_true, decide_eq_true_eq]
  exact renderNum_mem n

theorem pageStep_iterate {α : Type} (data : List α) (chunk : Nat) :
    ∀ k, (pageStep data chunk)^[k] (0, ([] : List α)) =
      (min (chunk * k) data.length, data.take (min (chunk * k) data.length)) := by
  intro k
  induction k with
  | zero => simp
  | succ k ih =>
    rw [Function.iterate_succ_apply', ih]
    simp only [pageStep]
    have hck : chunk * (k + 1) = chunk * k + chunk := by ring
    rw [hck]
    generalize chunk * k = a
    rw [Prod.mk.injEq]
    constructor
    · simp only [List.length_take, List.length_drop]
      omega
    · rw [← List.take_add]
      rw [List.take_eq_take]
      omega

/-! ## Claim theorems -/

/-- C1: for every filter map and column-metadata map in which a column is
classified `text` (or has no classification, the default),
`buildFilterClauses` emits for that column's non-empty value a
case-insensitive substring clause over the value cast to text, the value
first single-quote-escaped and then wildcard-escaped, wrapped `%value%`,
with an explicit `ESCAPE '\'` declaration; consequently a filter value of
`100%` yields a pattern matching the literal substring `100%` (and not a
wildcard prefix match, which the unescaped pattern would give). -/
theorem text_filter_clause (fm : List (Str × FilterVal))
    (cm : List (Str × ColMeta)) (col val : Str) (cs : List Str)
    (hmem : (col, FilterVal.scalar val) ∈ fm)
    (hkeep : keepFilter (FilterVal.scalar val) = true)
    (h1 : (metaOf cm col).filterType ≠ "range".toList)
    (h2 : (metaOf cm col).filterType ≠ "date".toList)
    (h3 : (metaOf cm col).filterType ≠ "select".toList)
    (hok : buildFilterClauses fm cm = .ok cs) :
    ("CAST(".toList ++ escapeColumnName col ++ " AS VARCHAR) ILIKE '%".toList ++
      escapeLikePattern (escapeSource val) ++ "%' ESCAPE '\\'".toList) ∈ cs ∧
    likeMatch ("%".toList ++ escapeLikePattern (escapeSource ("100%".toList)) ++
      "%".toList) ("the 100% offer".toList) = true ∧
    likeMatch ("%".toList ++ escapeLikePattern (escapeSource ("100%".toList)) ++
      "%".toList) ("100ab".toList) = false ∧
    likeMatch ("%".toList ++ "100%".toList ++ "%".toList) ("100ab".toList) = true := by
  refine ⟨?_, by decide, by decide, by decide⟩
  apply buildFilterClauses_mem fm cm col (FilterVal.scalar val) _ cs hok hmem hkeep
  unfold entryClause
  rw [if_neg h1, if_neg h2, if_neg h3]

theorem text_filter_clause_witness :
    ("CAST(".toList ++ escapeColumnName ("n".toList) ++ " AS VARCHAR) ILIKE '%".toList ++
      escapeLikePattern (escapeSource ("100%".toList)) ++ "%' ESCAPE '\\'".toList) ∈
      (["CAST(\"n\" AS VARCHAR) ILIKE '%100\\%%' ESCAPE '\\'".toList] : List Str) ∧
    likeMatch ("%".toList ++ escapeLikePattern (escapeSource ("100%".toList)) ++
      "%".toList) ("the 100% offer".toList) = true ∧
    likeMatch ("%".toList ++ escapeLikePattern (escapeSource ("100%".toList)) ++
      "%".toList) ("100ab".toList) = false ∧
    likeMatch ("%".toList ++ "100%".toList ++ "%".toList) ("100ab".toList) = true :=
  text_filter_clause [("n".toList, .scalar ("100%".toList))] []
    ("n".toList) ("100%".toList)
    ["CAST(\"n\" AS VARCHAR) ILIKE '%100\\%%' ESCAPE '\\'".toList]
    (by decide) (by decide) (by decide) (by decide) (by decide) rfl

/-- C2: for every `date`-classified filter whose `max` bound matches the
strict `YYYY-MM-DD` pattern, `buildFilterClauses` emits an exclusive upper
bound one day past `max` when the declared type is a timestamp, and an
inclusive `<=` bound when it is a pure date; the concrete timestamp case
with `max = '2024-01-31'` contains no `<=` bound on the literal max. -/
theorem date_upper_bound (fm : List (Str × FilterVal))
    (cm : List (Str × ColMeta)) (col mn mx : Str) (cs : List Str)
    (hmem : (col, FilterVal.range mn mx) ∈ fm)
    (hd : (metaOf cm col).filterType = "date".toList)
    (hmx : dateLit mx = true)
    (hok : buildFilterClauses fm cm = .ok cs) :
    paren (joinSql
      ((if !mn.isEmpty && dateLit mn then
          [escapeColumnName col ++ " >= '".toList ++ mn ++ "'".toList]
        else []) ++
       [if isTimestampType (metaOf cm col).type then
          escapeColumnName col ++ " < '".toList ++ mx ++
            "'::DATE + INTERVAL '1 day'".toList
        else escapeColumnName col ++ " <= '".toList ++ mx ++ "'".toList])) ∈ cs ∧
    buildFilterClauses
      [("created".toList, .range ("2024-01-01".toList) ("2024-01-31".toList))]
      [("created".toList, ⟨"date".toList, "TIMESTAMP".toList⟩)] =
      .ok ["(\"created\" >= '2024-01-01' AND \"created\" < '2024-01-31'::DATE + INTERVAL '1 day')".toList] ∧
    buildFilterClauses
      [("created".toList, .range ("2024-01-01".toList) ("2024-01-31".toList))]
      [("created".toList, ⟨"date".toList, "DATE".toList⟩)] =
      .ok ["(\"created\" >= '2024-01-01' AND \"created\" <= '2024-01-31')".toList] ∧
    isSubstr ("<= '2024-01-31'".toList)
      ("(\"created\" >= '2024-01-01' AND \"created\" < '2024-01-31'::DATE + INTERVAL '1 day')".toList) = false := by
  have hne : mx.isEmpty = false := dateLit_isEmpty mx hmx
  refine ⟨?_, rfl, rfl, by decide⟩
  apply buildFilterClauses_mem fm cm col (FilterVal.range mn mx) _ cs hok hmem
    (by simp [keepFilter, hne])
  unfold entryClause
  rw [if_neg (show ¬(metaOf cm col).filterType = "range".toList by rw [hd]; decide),
    if_pos hd]
  simp [hne, hmx]

theorem date_upper_bound_witness :
    paren (joinSql
      ((if !("2024-01-01".toList).isEmpty && dateLit ("2024-01-01".toList) then
          [escapeColumnName ("created".toList) ++ " >= '".toList ++
            "2024-01-01".toList ++ "'".toList]
        else []) ++
       [if isTimestampType (metaOf
            [("created".toList, ⟨"date".toList, "TIMESTAMP".toList⟩)]
            ("created".toList)).type then
          escapeColumnName ("created".toList) ++ " < '".toList ++
            "2024-01-31".toList ++ "'::DATE + INTERVAL '1 day'".toList
        else escapeColumnName ("created".toList) ++ " <= '".toList ++
          "2024-01-31".toList ++ "'".toList])) ∈
      ["(\"created\" >= '2024-01-01' AND \"created\" < '2024-01-31'::DATE + INTERVAL '1 day')".toList] ∧
    buildFilterClauses
      [("created".toList, .range ("2024-01-01".toList) ("2024-01-31".toList))]
      [("created".toList, ⟨"date".toList, "TIMESTAMP".toList⟩)] =
      .ok ["(\"created\" >= '2024-01-01' AND \"created\" < '2024-01-31'::DATE + INTERVAL '1 day')".toList] ∧
    buildFilterClauses
      [("created".toList, .range ("2024-01-01".toList) ("2024-01-31".toList))]
      [("created".toList, ⟨"date".toList, "DATE".toList⟩)] =
      .ok ["(\"created\" >= '2024-01-01' AND \"created\" <= '2024-01-31')".toList] ∧
    isSubstr ("<= '2024-01-31'".toList)
      ("(\"created\" >= '2024-01-01' AND \"created\" < '2024-01-31'::DATE + INTERVAL '1 day')".toList) = false :=
  date_upper_bound
    [("created".toList, .range ("2024-01-01".toList) ("2024-01-31".toList))]
    [("created".toList, ⟨"date".toList, "TIMESTAMP".toList⟩)]
    ("created".toList) ("2024-01-01".toList) ("2024-01-31".toList)
    ["(\"created\" >= '2024-01-01' AND \"created\" < '2024-01-31'::DATE + INTERVAL '1 day')".toList]
    (by decide) (by decide) (by decide) rfl

/-- C3: an entry whose value is empty (scalar empty string, or a
`{min, max}` pair with both components empty) contributes zero clauses:
`buildFilterClauses` on a map containing it equals `buildFilterClauses` on
the map with the entry removed, for every classification map. -/
theorem empty_filter_entry_dropped (fm1 fm2 : List (Str × FilterVal))
    (cm : List (Str × ColMeta)) (col : Str) (v : FilterVal)
    (h : isEmptyFilterVal v = true) :
    buildFilterClauses (fm1 ++ (col, v) :: fm2) cm =
      buildFilterClauses (fm1 ++ fm2) cm := by
  unfold buildFilterClauses
  simp [List.filter_append, List.filter_cons, keepFilter_of_empty v h]

theorem empty_filter_entry_dropped_witness :
    buildFilterClauses
      ([("name".toList, FilterVal.scalar ("jo".toList))] ++
        ("age".toList, FilterVal.range [] []) ::
        [("city".toList, FilterVal.scalar ("pa".toList))]) [] =
      buildFilterClauses
        ([("name".toList, FilterVal.scalar ("jo".toList))] ++
          [("city".toList, FilterVal.scalar ("pa".toList))]) [] :=
  empty_filter_entry_dropped
    [("name".toList, FilterVal.scalar ("jo".toList))]
    [("city".toList, FilterVal.scalar ("pa".toList))]
    [] ("age".toList) (FilterVal.range [] []) (by decide)

/-- C4: for every `range`-classified filter, min and max are parsed as
floating-point numbers and `col >= min` / `col <= max` comparisons are
emitted only for the bounds that parse, the clause being omitted entirely
when neither parses; concretely, a range filter with only `min` set yields
exactly one comparison. -/
theorem range_bounds_parse (cm : List (Str × ColMeta)) (col mn mx : Str)
    (hr : (metaOf cm col).filterType = "range".toList) :
    entryClause col (.range mn mx) (metaOf cm col) = .ok (
      match jsParseFloat mn, jsParseFloat mx with
      | none, none => none
      | some a, none =>
        some (paren (escapeColumnName col ++ " >= ".toList ++ renderNum a))
      | none, some b =>
        some (paren (escapeColumnName col ++ " <= ".toList ++ renderNum b))
      | some a, some b =>
        some (paren (escapeColumnName col ++ " >= ".toList ++ renderNum a ++
          " AND ".toList ++ escapeColumnName col ++ " <= ".toList ++
          renderNum b))) ∧
    buildFilterClauses [("age".toList, .range ("18".toList) [])]
      [("age".toList, ⟨"range".toList, "BIGINT".toList⟩)] =
      .ok ["(\"age\" >= 18)".toList] := by
  refine ⟨?_, rfl⟩
  unfold entryClause
  rw [if_pos hr]
  rcases hm : jsParseFloat mn with _ | a <;> rcases hx : jsParseFloat mx with _ | b <;>
    simp [hm, hx, joinSql, paren, List.append_assoc]

theorem range_bounds_parse_witness :
    entryClause ("age".toList) (.range ("18".toList) [])
      (metaOf [("age".toList, ⟨"range".toList, "BIGINT".toList⟩)] ("age".toList)) =
      .ok (some (paren (escapeColumnName ("age".toList) ++ " >= ".toList ++
        renderNum (.fin 18 0)))) ∧
    buildFilterClauses [("age".toList, .range ("18".toList) [])]
      [("age".toList, ⟨"range".toList, "BIGINT".toList⟩)] =
      .ok ["(\"age\" >= 18)".toList] :=
  range_bounds_parse [("age".toList, ⟨"range".toList, "BIGINT".toList⟩)]
    ("age".toList) ("18".toList) [] rfl

/-- C5: the paging step shared by `loadMore` and each `loadAll` batch
advances the offset by exactly the number of rows actually returned
(second conjunct), and iterating it until the data is exhausted loads
exactly the filtered rows, no duplicates and no gaps, whether or not the
chunk size divides the total evenly (first conjunct). -/
theorem paging_exact {α : Type} (data : List α) (chunk n : Nat)
    (s : Nat × List α) (hn : data.length ≤ chunk * n) :
    (pageStep data chunk)^[n] (0, ([] : List α)) = (data.length, data) ∧
    (pageStep data chunk s).1 = s.1 + ((data.drop s.1).take chunk).length := by
  refine ⟨?_, rfl⟩
  rw [pageStep_iterate, Nat.min_eq_right hn, List.take_length]

theorem paging_exact_witness :
    (pageStep ([10, 20, 30, 40, 50] : List Nat) 2)^[3] (0, []) =
      (([10, 20, 30, 40, 50] : List Nat).length, [10, 20, 30, 40, 50]) ∧
    (pageStep ([10, 20, 30, 40, 50] : List Nat) 2 (0, [])).1 =
      0 + ((([10, 20, 30, 40, 50] : List Nat).drop 0).take 2).length :=
  paging_exact [10, 20, 30, 40, 50] 2 3 (0, []) (by decide)

/-- C6: after each transition that displays a remaining-row count (sort,
scalar filter, range filter, load-more), the displayed `remaining` equals
`filteredCount - offset` where `filteredCount` is the fresh filtered-count
query at the post-transition filters whenever any filter is active and the
cached unfiltered total otherwise, and loading is disabled exactly when
`remaining ≤ 0`. -/
theorem remaining_invariant {α : Type} (eng : Engine α) (t : ViewerTrans)
    (st : ViewerState α) :
    (applyTrans eng t st).remaining =
      (if hasFilters (applyTrans eng t st).filters
       then ((eng (applyTrans eng t st).filters).length : Int)
       else ((applyTrans eng t st).totalRows : Int)) -
        ((applyTrans eng t st).offset : Int) ∧
    (applyTrans eng t st).moreDisabled =
      decide ((applyTrans eng t st).remaining ≤ 0) := by
  cases t <;> exact ⟨rfl, rfl⟩

/-- C7: applying Sort(column) when `column` is the current sort column
flips the direction between ascending and descending, while any other
column becomes the sort column with direction forced to ascending
regardless of prior state; in both cases the load offset is reset to 0. -/
theorem sort_toggle {α : Type} (st : ViewerState α) (col : Str) :
    (handleSortState col st).offset = 0 ∧
    (handleSortState col st).sortColumn = some col ∧
    (handleSortState col st).sortDirection =
      some (if st.sortColumn = some col
            then (if st.sortDirection = some ascDir then descDir else ascDir)
            else ascDir) := by
  by_cases h : st.sortColumn = some col <;> simp [handleSortState, h]

/-- C8 counterexample: the locally synthesized timeout error message is
classified by `handleError`'s priority chain as the generic fallback, not
as a network error, under either value of the remote-URL flag. -/
theorem timeout_not_network :
    classifyError true timeoutErrorMessage = ErrorKind.generic ∧
    classifyError false timeoutErrorMessage = ErrorKind.generic ∧
    ErrorKind.generic ≠ ErrorKind.network := ⟨rfl, rfl, by decide⟩

/-- C8 amended: a remote-URL load that outlives the timeout budget is
rejected with the synthesized timeout error, which matches none of the
cors / network / invalid-parquet substring classifiers and is therefore
surfaced through the generic fallback error display. -/
theorem timeout_surfaced_generic (b : Bool) :
    classifyError b timeoutErrorMessage = ErrorKind.generic := by
  cases b <;> rfl

/-- C9 counterexample: a concrete overlapped run in which a reload issued
under an older filter snapshot completes after a fresher one and
overwrites it — the final display reflects the stale snapshot while the
session filters are the newer one, contradicting the claimed
generation-tagged discard of stale results. -/
theorem stale_result_written :
    (runAsync [.mutate snapshotA, .mutate snapshotB, .complete 1, .complete 0]
      { filters := [], pending := [], display := none }).display =
        some snapshotA ∧
    (runAsync [.mutate snapshotA, .mutate snapshotB, .complete 1, .complete 0]
      { filters := [], pending := [], display := none }).filters = snapshotB ∧
    snapshotA ≠ snapshotB := ⟨rfl, rfl, by decide⟩

/-- C9 amended: the code carries no generation tag — a completing reload
writes its results into session state unconditionally, so the display
always reflects the snapshot of the last *completed* query (and the
current filters are untouched), i.e. last-completion-wins rather than
last-transition-wins. -/
theorem completion_writes_unconditionally (st : AsyncState) (i : Nat)
    (f : List (Str × FilterVal)) (h : st.pending[i]? = some f) :
    (stepAsync st (.complete i)).display = some f ∧
    (stepAsync st (.complete i)).filters = st.filters := by
  simp [stepAsync, h]

theorem completion_writes_unconditionally_witness :
    (stepAsync { filters := snapshotB, pending := [snapshotA], display := none }
      (.complete 0)).display = some snapshotA ∧
    (stepAsync { filters := snapshotB, pending := [snapshotA], display := none }
      (.complete 0)).filters =
      ({ filters := snapshotB, pending := [snapshotA], display := none } :
        AsyncState).filters :=
  completion_writes_unconditionally
    { filters := snapshotB, pending := [snapshotA], display := none }
    0 snapshotA rfl

/-- C10: a comparison emitted for a `range`-classified column interpolates
only the decimal rendering of the parsed number — whose characters all lie
in the numeric-literal alphabet — never the raw min/max input string;
concretely, `18; DROP TABLE users` in the min field produces the clause
`("age" >= 18)` which does not contain the raw input. -/
theorem range_renders_parsed_number (cm : List (Str × ColMeta))
    (col mn mx : Str) (a : JSNum)
    (hr : (metaOf cm col).filterType = "range".toList)
    (ha : jsParseFloat mn = some a) :
    entryClause col (.range mn mx) (metaOf cm col) = .ok (some (paren
      (escapeColumnName col ++ " >= ".toList ++ renderNum a ++
        (match jsParseFloat mx with
         | some b => " AND ".toList ++ escapeColumnName col ++
             " <= ".toList ++ renderNum b
         | none => [])))) ∧
    allSafe (renderNum a) = true ∧
    buildFilterClauses
      [("age".toList, .range ("18; DROP TABLE users".toList) [])]
      [("age".toList, ⟨"range".toList, "BIGINT".toList⟩)] =
      .ok ["(\"age\" >= 18)".toList] ∧
    isSubstr ("18; DROP TABLE users".toList) ("(\"age\" >= 18)".toList) = false := by
  refine ⟨?_, allSafe_renderNum a, rfl, by decide⟩
  unfold entryClause
  rw [if_pos hr]
  rcases hx : jsParseFloat mx with _ | b <;>
    simp [ha, hx, joinSql, paren, List.append_assoc]

theorem range_renders_parsed_number_witness :
    entryClause ("age".toList) (.range ("18; DROP TABLE users".toList) [])
      (metaOf [("age".toList, ⟨"range".toList, "BIGINT".toList⟩)] ("age".toList)) =
      .ok (some (paren (escapeColumnName ("age".toList) ++ " >= ".toList ++
        renderNum (.fin 18 0) ++ []))) ∧
    allSafe (renderNum (.fin 18 0)) = true ∧
    buildFilterClauses
      [("age".toList, .range ("18; DROP TABLE users".toList) [])]
      [("age".toList, ⟨"range".toList, "BIGINT".toList⟩)] =
      .ok ["(\"age\" >= 18)".toList] ∧
    isSubstr ("18; DROP TABLE users".toList) ("(\"age\" >= 18)".toList) = false :=
  range_renders_parsed_number
    [("age".toList, ⟨"range".toList, "BIGINT".toList⟩)]
    ("age".toList) ("18; DROP TABLE users".toList) [] (.fin 18 0) rfl rfl

end ParquetPeek
